import Mathlib

set_option maxRecDepth 100000

/-!
Shallow embedding of the date-indexed content resolution and generation
subsystem of the today-api repository (the resolver modules of the three
content domains, and the generation scripts for weird holidays, blooming
plants and historical events).

File-system reads (`fs.existsSync` + `fs.readFileSync` + `JSON.parse`) are
modelled by a map from paths to a `FileState`; the file-system writes
performed by the generators are modelled as an explicit event list.  The
external OpenAI collaborator is modelled as an oracle
`Nat → Nat → Except String Json` (month, day ↦ parsed document, or the
thrown error's message).
-/

namespace TodayApi

/-- JSON values, as produced by `JSON.parse` / consumed by `JSON.stringify`.
Numbers are modelled as integers (no claim depends on non-integer numbers). -/
inductive Json where
  | null
  | bool (b : Bool)
  | num (n : Int)
  | str (s : String)
  | arr (elems : List Json)
  | obj (fields : List (String × Json))

/-- State of one path on disk, as observed through `fs.existsSync` followed by
`JSON.parse(fs.readFileSync(...))`: the file is absent, or present but not
valid JSON (with the parse error's message), or present with a parsed
document. -/
inductive FileState where
  | absent
  | invalid (cause : String)
  | valid (doc : Json)

/-- The `month` argument of the resolver functions: a JS number or a string
(the source branches on `typeof month === "number"`). -/
inductive MonthArg where
  | num (m : Int)
  | str (s : String)

/-- Capitalized English month names, as returned by
`toLocaleString("default", { month: "long" })` in the default locale. -/
def monthLongNames : List String :=
  ["January", "February", "March", "April", "May", "June",
   "July", "August", "September", "October", "November", "December"]

/-- Models `new Date(2024, m - 1, 1).toLocaleString("default", {month: "long"})`.
The JS `Date` constructor normalizes an out-of-range month index by wrapping
into adjacent years (the day argument is the constant 1, so no day overflow
occurs); the resulting calendar month is `(m - 1) mod 12`. -/
def monthLongNameOfNum (m : Int) : String :=
  monthLongNames.getD ((m - 1) % 12).toNat "January"

/-- `s.toLowerCase()`: lowercase every character (the strings involved are
ASCII month names). -/
def toLowerCase (s : String) : String :=
  String.mk (s.data.map Char.toLower)

/-- Month normalization in the resolvers: a numeric month goes through the
`Date` round-trip and `toLowerCase()`; a string month is lowercased as is. -/
def normalizeMonth : MonthArg → String
  | .num m => toLowerCase (monthLongNameOfNum m)
  | .str s => toLowerCase s

/-- `String(day).padStart(2, "0")`. -/
def pad2 (day : Nat) : String :=
  let s := toString day
  if s.length ≥ 2 then s else "0" ++ s

/-- The per-domain constants of the triplicated resolver/generator pattern:
directory name, name of the items array field, the literal message strings
of the resolver's not-found and read-error results, and the summary/index
artifact file names used by the generators. -/
structure Domain where
  dirName : String
  itemsField : String
  noDataText : String
  hintText : String
  readErrText : String
  summaryFileName : String
  indexFileName : String

/-- Constants of `getWeirdHolidaysFromFile` and `generateWeirdHolidays.js`. -/
def whDomain : Domain :=
  { dirName := "weirdHolidays"
    itemsField := "holidays"
    noDataText := "No weird holiday data found for "
    hintText := "Run the weird holidays generation script to create holiday data files"
    readErrText := "Error reading weird holiday data: "
    summaryFileName := "data/weird-holidays-summary.json"
    indexFileName := "data/weird-holidays-index.json" }

/-- Constants of `getBloomingPlantsFromFile` and `generateBloomingPlants.js`. -/
def bpDomain : Domain :=
  { dirName := "bloomingPlants"
    itemsField := "plants"
    noDataText := "No blooming plants data found for "
    hintText := "Run the blooming plants generation script to create plant data files"
    readErrText := "Error reading blooming plants data: "
    summaryFileName := "data/blooming-plants-summary.json"
    indexFileName := "data/blooming-plants-index.json" }

/-- Constants of `getHistoricalEventsFromFile` and the historical-events
generator (which uses unprefixed artifact names `summary.json` /
`file-index.json`). -/
def heDomain : Domain :=
  { dirName := "historicalEvents"
    itemsField := "events"
    noDataText := "No saved data found for "
    hintText := "Run the yearly generation script to create historical data files"
    readErrText := "Error reading saved data: "
    summaryFileName := "data/summary.json"
    indexFileName := "data/file-index.json" }

/-- The canonical path a resolver reads:
`path.join(dataDir, monthName, fileName)` with
`dataDir = <root>/data/<domain>` and `fileName = <padded day>.json`
(paths written relative to the repository root). -/
def resolverPath (cfg : Domain) (month : MonthArg) (day : Nat) : String :=
  "data/" ++ cfg.dirName ++ "/" ++ normalizeMonth month ++ "/" ++ pad2 day ++ ".json"

/-- The shared body of the three `get<Domain>FromFile` resolver functions:
normalize the month, build the canonical path, return the not-found object
if the file is absent, the parsed document unchanged if it parses, and the
read-error object if parsing throws. -/
def getFromFile (cfg : Domain) (fs : String → FileState) (month : MonthArg)
    (day : Nat) : Json :=
  let monthName := normalizeMonth month
  match fs (resolverPath cfg month day) with
  | .absent =>
      Json.obj
        [("error", Json.str (cfg.noDataText ++ monthName ++ " " ++ toString day)),
         ("date", Json.str (monthName ++ " " ++ toString day)),
         (cfg.itemsField, Json.arr []),
         ("message", Json.str cfg.hintText)]
  | .invalid cause =>
      Json.obj
        [("error", Json.str (cfg.readErrText ++ cause)),
         ("date", Json.str (monthName ++ " " ++ toString day)),
         (cfg.itemsField, Json.arr [])]
  | .valid doc => doc

/-- `getWeirdHolidaysFromFile` from the weird-holidays module. -/
def getWeirdHolidaysFromFile : (String → FileState) → MonthArg → Nat → Json :=
  getFromFile whDomain

/-- `getBloomingPlantsFromFile` from the blooming-plants module. -/
def getBloomingPlantsFromFile : (String → FileState) → MonthArg → Nat → Json :=
  getFromFile bpDomain

/-- `getHistoricalEventsFromFile` from the historical-events module. -/
def getHistoricalEventsFromFile : (String → FileState) → MonthArg → Nat → Json :=
  getFromFile heDomain

/-- Field lookup inside a parsed JSON object (first binding wins; the
documents involved have unique keys). -/
def lookupField : List (String × Json) → String → Option Json
  | [], _ => none
  | (k, v) :: rest, key => if k = key then some v else lookupField rest key

/-- `doc.key` on a parsed JSON value. -/
def jsonField : Json → String → Option Json
  | .obj fields, key => lookupField fields key
  | _, _ => none

/-! ## Generator model -/

/-- Non-leap-year days per month, `daysInMonth` in the generation scripts. -/
def daysInMonth : List Nat := [31, 28, 31, 30, 31, 30, 31, 31, 30, 31, 30, 31]

/-- `daysInMonth[month - 1]` (the generators index with `month - 1`). -/
def dim (month : Nat) : Nat := daysInMonth.getD (month - 1) 0

/-- `totalDays`: the generators sum `daysInMonth` over months 1..12. -/
def totalDays : Nat :=
  (List.range' 1 12).foldl (fun acc month => acc + dim month) 0

/-- The in-memory record the generators push onto `processedFiles` after each
date: month name (capitalized), day, file path, item count (named
`holidayCount`/`plantCount`/`eventCount` per domain in the source), and the
error message when the date failed (the field is absent on success). -/
structure ProcessedFile where
  month : String
  day : Nat
  file : String
  itemCount : Nat
  error : Option String

/-- Summary artifact written by `generate<Domain>SummaryAndIndex` (fields
named `totalHolidays`/`totalPlants`/`totalEvents` etc. per domain in the
source, generic names here; `generatedAt` is wall-clock time, outside the
model). -/
structure Summary where
  totalItems : Nat
  totalDaysWithItems : Nat
  totalErrors : Nat
  averageItemsPerDay : Rat
  totalFiles : Nat

/-- One entry of the file index: `{file (relative), itemCount, hasError}`. -/
structure IndexEntry where
  file : String
  itemCount : Nat
  hasError : Bool

/-- The file index, keyed by (lowercase month name, day). -/
abbrev FileIndex : Type := List ((String × Nat) × IndexEntry)

/-- A file-system write performed by a generator run: a per-day JSON file, a
progress snapshot (`lastUpdated` is wall-clock time, outside the model), the
summary artifact, or the index artifact. -/
inductive Event where
  | dayFile (path : String) (content : Json)
  | progress (path : String) (processedDays totalDays : Nat)
      (recent : List ProcessedFile)
  | summaryFile (path : String) (s : Summary)
  | indexFile (path : String) (idx : FileIndex)

/-- Mutable state of a generation run: the writes performed so far, the
`processedFiles` list, and the `processedDays` counter (incremented only on
success). -/
structure RunState where
  events : List Event
  processedFiles : List ProcessedFile
  processedDays : Nat

def initState : RunState := ⟨[], [], 0⟩

/-- JS truthiness of the `error` field (`if (fileInfo.error)` and
`!!fileInfo.error`): an absent field and an empty string are falsy. -/
def truthyErr : Option String → Bool
  | none => false
  | some s => s != ""

/-- `doc.items ? doc.items.length : 0` (e.g. `holidays.holidays ?
holidays.holidays.length : 0`); the collaborator's documents carry the items
field as an array, and an absent or non-array field counts as 0. -/
def fieldArrayLen (doc : Json) (key : String) : Nat :=
  match jsonField doc key with
  | some (.arr elems) => elems.length
  | _ => 0

/-- The canonical path a generator writes for one date:
`path.join(monthDir, fileName)` with `monthDir = data/<domain>/<lowercase
month name>` and `fileName = <padded day>.json`. -/
def dayPath (cfg : Domain) (month day : Nat) : String :=
  "data/" ++ cfg.dirName ++ "/" ++ toLowerCase (monthLongNameOfNum month) ++ "/"
    ++ pad2 day ++ ".json"

/-- One iteration of a generator's inner day loop (identical in the full runs
and the resume runs): call the collaborator; on success write the returned
document to the canonical path and push a success record; on a thrown error
write the error record `{error, date, items: []}` to the same path and push a
record with the message and item count 0. The run continues either way. -/
def runDay (cfg : Domain) (gen : Nat → Nat → Except String Json) (month : Nat)
    (st : RunState) (day : Nat) : RunState :=
  let monthName := monthLongNameOfNum month
  let filePath := dayPath cfg month day
  match gen month day with
  | .ok doc =>
      { events := st.events ++ [Event.dayFile filePath doc]
        processedFiles := st.processedFiles ++
          [⟨monthName, day, filePath, fieldArrayLen doc cfg.itemsField, none⟩]
        processedDays := st.processedDays + 1 }
  | .error msg =>
      let errorData := Json.obj
        [("error", Json.str msg),
         ("date", Json.str (monthName ++ " " ++ toString day)),
         (cfg.itemsField, Json.arr [])]
      { events := st.events ++ [Event.dayFile filePath errorData]
        processedFiles := st.processedFiles ++
          [⟨monthName, day, filePath, 0, some msg⟩]
        processedDays := st.processedDays }

/-- The days visited by a month's day loop,
`for (let day = fromDay; day <= daysInMonth[month-1]; day++)`. -/
def monthDayList (month fromDay : Nat) : List Nat :=
  List.range' fromDay (dim month + 1 - fromDay)

/-- The day loop of one month. -/
def runMonthDays (cfg : Domain) (gen : Nat → Nat → Except String Json)
    (month fromDay : Nat) (st : RunState) : RunState :=
  (monthDayList month fromDay).foldl (runDay cfg gen month) st

/-- A month loop without progress writes, over a given month list; the day
loop of month `m` starts at `dayStart m` (constantly 1 for the full runs). -/
def runMonths (cfg : Domain) (gen : Nat → Nat → Except String Json)
    (dayStart : Nat → Nat) (months : List Nat) (st : RunState) : RunState :=
  months.foldl (fun st month => runMonthDays cfg gen month (dayStart month) st) st

/-- One step of the `processedFiles.forEach` summary loop over the counters
`(totalItems, totalDaysWithItems, totalErrors)`: an error record bumps the
error count, otherwise a positive item count bumps the days-with-items count
and the item total. -/
def summaryStep (acc : Nat × Nat × Nat) (r : ProcessedFile) : Nat × Nat × Nat :=
  if truthyErr r.error then (acc.1, acc.2.1, acc.2.2 + 1)
  else if r.itemCount > 0 then (acc.1 + r.itemCount, acc.2.1 + 1, acc.2.2)
  else acc

/-- The three summary counters accumulated by the `forEach` loop. -/
def summaryCounts (records : List ProcessedFile) : Nat × Nat × Nat :=
  records.foldl summaryStep (0, 0, 0)

/-- `path.relative(dataDir, p)` for the paths the runs produce, which all
live directly under the data root: drop the leading `data/`. -/
def relativeToData (p : String) : String := p.drop 5

/-- The summary object persisted to the summary artifact: totals plus the
average guarded against division by zero (JS float division, modelled
exactly over the rationals). -/
def mkSummary (records : List ProcessedFile) : Summary :=
  let counts := summaryCounts records
  { totalItems := counts.1
    totalDaysWithItems := counts.2.1
    totalErrors := counts.2.2
    averageItemsPerDay :=
      if counts.2.1 > 0 then (counts.1 : Rat) / (counts.2.1 : Rat) else 0
    totalFiles := records.length }

/-- The file index built by the same `forEach` loop: one entry per record,
keyed by lowercase month name and day, holding the data-root-relative path,
the item count and the error flag `hasError = !!fileInfo.error`. -/
def mkIndex (records : List ProcessedFile) : FileIndex :=
  records.foldl
    (fun idx r =>
      idx ++ [((toLowerCase r.month, r.day),
               ⟨relativeToData r.file, r.itemCount, truthyErr r.error⟩)])
    []

/-- `generateHolidaySummaryAndIndex(processedFiles, dataDir)`: the summary
and index values it persists. -/
def generateHolidaySummaryAndIndex (processedFiles : List ProcessedFile) :
    Summary × FileIndex :=
  (mkSummary processedFiles, mkIndex processedFiles)

/-- `generatePlantsSummaryAndIndex(processedFiles, dataDir)`: identical
aggregation for the blooming-plants domain. -/
def generatePlantsSummaryAndIndex (processedFiles : List ProcessedFile) :
    Summary × FileIndex :=
  (mkSummary processedFiles, mkIndex processedFiles)

/-- End of a full or resume run: write the summary file then the index file
(computed from this run's own `processedFiles` only). -/
def finishRun (cfg : Domain) (st : RunState) : RunState :=
  { st with
      events := st.events ++
        [Event.summaryFile cfg.summaryFileName (mkSummary st.processedFiles),
         Event.indexFile cfg.indexFileName (mkIndex st.processedFiles)] }

/-- `generateWeirdHolidays()`: months 1–12, days from 1; no progress snapshot
is ever written by this generator; summary and index at the end. -/
def generateWeirdHolidays (gen : Nat → Nat → Except String Json) : RunState :=
  finishRun whDomain (runMonths whDomain gen (fun _ => 1) (List.range' 1 12) initState)

/-- `processedFiles.slice(-31)`: the last (up to) `n` elements. -/
def lastN (n : Nat) (l : List α) : List α := l.drop (l.length - n)

/-- Path of the blooming-plants progress artifact. -/
def bpProgressFile : String := "data/blooming-plants-generation-progress.json"

/-- The month loop of `generateBloomingPlants()`: after each month's day loop
it writes the progress snapshot (cumulative `processedDays`, `totalDays`, and
`processedFiles.slice(-31)`). -/
def runMonthsBP (gen : Nat → Nat → Except String Json) (months : List Nat)
    (st : RunState) : RunState :=
  months.foldl
    (fun st month =>
      let st2 := runMonthDays bpDomain gen month 1 st
      { st2 with
          events := st2.events ++
            [Event.progress bpProgressFile st2.processedDays totalDays
              (lastN 31 st2.processedFiles)] })
    st

/-- `generateBloomingPlants()`: months 1–12 with a progress snapshot after
each month; summary and index at the end. -/
def generateBloomingPlants (gen : Nat → Nat → Except String Json) : RunState :=
  finishRun bpDomain (runMonthsBP gen (List.range' 1 12) initState)

/-- The skipped-day counter computed up front by the resume functions:
nested loops over all canonical dates counting those strictly before
`(startMonth, startDay)`. -/
def skipDaysCount (startMonth startDay : Nat) : Nat :=
  (List.range' 1 12).foldl
    (fun acc month =>
      (List.range' 1 (dim month)).foldl
        (fun acc2 day =>
          if month < startMonth ∨ (month = startMonth ∧ day < startDay) then
            acc2 + 1
          else acc2)
        acc)
    0

/-- `resumeWeirdHolidaysFromDate(startMonth, startDay)`: months from
`startMonth` to 12, the first month's day loop starting at `startDay`; the
up-front skip count is returned alongside the run's state (the source only
reports it on the console). -/
def resumeWeirdHolidaysFromDate (gen : Nat → Nat → Except String Json)
    (startMonth startDay : Nat) : RunState × Nat :=
  (finishRun whDomain
     (runMonths whDomain gen (fun m => if m = startMonth then startDay else 1)
       (List.range' startMonth (13 - startMonth)) initState),
   skipDaysCount startMonth startDay)

/-- `resumeBloomingPlantsFromDate(startMonth, startDay)`: same structure (the
resume loops write no progress snapshots). -/
def resumeBloomingPlantsFromDate (gen : Nat → Nat → Except String Json)
    (startMonth startDay : Nat) : RunState × Nat :=
  (finishRun bpDomain
     (runMonths bpDomain gen (fun m => if m = startMonth then startDay else 1)
       (List.range' startMonth (13 - startMonth)) initState),
   skipDaysCount startMonth startDay)

/-- `generateSingleDate(month, day)` (present in the blooming-plants and
historical-events scripts): one collaborator call; on success exactly one
day-file write and the processed-file record as return value; on failure the
error is re-thrown with no file written — and no summary, index or progress
artifact in either case. -/
def generateSingleDate (cfg : Domain) (gen : Nat → Nat → Except String Json)
    (month day : Nat) : List Event × Except String ProcessedFile :=
  let monthName := monthLongNameOfNum month
  let filePath := dayPath cfg month day
  match gen month day with
  | .ok doc =>
      ([Event.dayFile filePath doc],
       .ok ⟨monthName, day, filePath, fieldArrayLen doc cfg.itemsField, none⟩)
  | .error msg => ([], .error msg)

/-- All 365 canonical dates in chronological order. -/
def allDates : List (Nat × Nat) :=
  (List.range' 1 12).flatMap fun month =>
    (List.range' 1 (dim month)).map fun day => (month, day)

/-- Strict chronological order on (month, day) pairs, as tested by the
resume functions' skip condition. -/
def dateBefore (a b : Nat × Nat) : Bool :=
  decide (a.1 < b.1) || (decide (a.1 = b.1) && decide (a.2 < b.2))

/-! ## Derived descriptions of the run loops -/

/-- The error record a full/resume run writes for a failed date. -/
def errRecordJson (cfg : Domain) (month day : Nat) (msg : String) : Json :=
  Json.obj
    [("error", Json.str msg),
     ("date", Json.str (monthLongNameOfNum month ++ " " ++ toString day)),
     (cfg.itemsField, Json.arr [])]

/-- The content written for one date by a full/resume run: the collaborator's
document on success, the error record on failure. -/
def dayContent (cfg : Domain) (gen : Nat → Nat → Except String Json)
    (month day : Nat) : Json :=
  match gen month day with
  | .ok doc => doc
  | .error msg => errRecordJson cfg month day msg

/-- The single write event one date contributes to a full/resume run. -/
def dayEvent (cfg : Domain) (gen : Nat → Nat → Except String Json)
    (month day : Nat) : Event :=
  Event.dayFile (dayPath cfg month day) (dayContent cfg gen month day)

/-- The processed-file record one date contributes to a full/resume run. -/
def dayRecord (cfg : Domain) (gen : Nat → Nat → Except String Json)
    (month day : Nat) : ProcessedFile :=
  match gen month day with
  | .ok doc =>
      ⟨monthLongNameOfNum month, day, dayPath cfg month day,
       fieldArrayLen doc cfg.itemsField, none⟩
  | .error msg => ⟨monthLongNameOfNum month, day, dayPath cfg month day, 0, some msg⟩

/-- Contribution of one date to the `processedDays` counter (1 on success). -/
def okInc (gen : Nat → Nat → Except String Json) (month day : Nat) : Nat :=
  match gen month day with
  | .ok _ => 1
  | .error _ => 0

/-- The event trace of the month loop of `generateBloomingPlants`, months
taken from `months`, given the records and success count accumulated before
those months: each month contributes its day writes followed by one progress
snapshot holding the cumulative success count, the total day count and the
last (up to) 31 records. -/
def bpMonthsEvents (gen : Nat → Nat → Except String Json) (months : List Nat)
    (recs : List ProcessedFile) (pd : Nat) : List Event :=
  match months with
  | [] => []
  | m :: rest =>
      let recs2 := recs ++ (monthDayList m 1).map (dayRecord bpDomain gen m)
      let pd2 := pd + ((monthDayList m 1).map (okInc gen m)).sum
      ((monthDayList m 1).map (dayEvent bpDomain gen m) ++
        [Event.progress bpProgressFile pd2 totalDays (lastN 31 recs2)]) ++
        bpMonthsEvents gen rest recs2 pd2

/-- Projection of a processed-file record to its (month name, day) key. -/
def recKey (r : ProcessedFile) : String × Nat := (r.month, r.day)

/-- Whether a run event is a progress-snapshot write. -/
def isProgressEvent : Event → Bool
  | .progress _ _ _ _ => true
  | _ => false

/-- Whether the summary loop counts a record as an error
(`if (fileInfo.error)`). -/
def isErrRecord (r : ProcessedFile) : Bool := truthyErr r.error

/-- Whether the summary loop counts a record as a day with items
(no truthy error, positive item count). -/
def isItemDay (r : ProcessedFile) : Bool :=
  !truthyErr r.error && decide (r.itemCount > 0)

/-! ## Concrete fixtures used by witnesses and counterexamples -/

/-- A sample parsed document of arbitrary shape (no items field at all). -/
def demoDoc : Json := Json.obj [("foo", Json.str "bar")]

/-- A sample collaborator document with two holidays. -/
def demoHolidaysDoc : Json :=
  Json.obj
    [("date", Json.str "January 1"),
     ("holidays", Json.arr [Json.str "a", Json.str "b"])]

/-- A file system holding `demoDoc` at the March 5 slot of the weird-holidays
and blooming-plants subtrees, and nothing else. -/
def fsDemo : String → FileState := fun p =>
  if p = "data/weirdHolidays/march/05.json" then FileState.valid demoDoc
  else if p = "data/bloomingPlants/march/05.json" then FileState.valid demoDoc
  else FileState.absent

/-- An empty file system. -/
def fsAbsent : String → FileState := fun _ => FileState.absent

/-- A file system on which every read hits invalid JSON. -/
def fsCorrupt : String → FileState := fun _ =>
  FileState.invalid "Unexpected token h in JSON at position 0"

/-- A collaborator oracle that always succeeds with `demoHolidaysDoc`. -/
def genOkDemo : Nat → Nat → Except String Json := fun _ _ => .ok demoHolidaysDoc

/-- A collaborator oracle that always throws. -/
def genFailDemo : Nat → Nat → Except String Json := fun _ _ => .error "boom"

/-- The processed-file list of the C5 test vector:
`[{month:"January", day:1, itemCount:3}, {month:"January", day:2, error:"x",
itemCount:0}]` (file paths chosen as a full run would produce them). -/
def summaryExampleRecords : List ProcessedFile :=
  [⟨"January", 1, "data/weirdHolidays/january/01.json", 3, none⟩,
   ⟨"January", 2, "data/weirdHolidays/january/02.json", 0, some "x"⟩]

/-- A processed-file list with one no-error zero-count record, one error
record with a positive item count, and one ordinary success record. -/
def mixedRecords : List ProcessedFile :=
  [⟨"January", 1, "data/weirdHolidays/january/01.json", 0, none⟩,
   ⟨"January", 2, "data/weirdHolidays/january/02.json", 5, some "x"⟩,
   ⟨"January", 3, "data/weirdHolidays/january/03.json", 2, none⟩]

/-! ## Characterization of the run loops -/

theorem runDay_eq (cfg : Domain) (gen : Nat → Nat → Except String Json)
    (month : Nat) (st : RunState) (day : Nat) :
    runDay cfg gen month st day =
      ⟨st.events ++ [dayEvent cfg gen month day],
       st.processedFiles ++ [dayRecord cfg gen month day],
       st.processedDays + okInc gen month day⟩ := by
  cases h : gen month day <;>
    simp [runDay, dayEvent, dayContent, dayRecord, errRecordJson, okInc, h]

theorem foldl_runDay_eq (cfg : Domain) (gen : Nat → Nat → Except String Json)
    (month : Nat) (ds : List Nat) (st : RunState) :
    ds.foldl (runDay cfg gen month) st =
      ⟨st.events ++ ds.map (dayEvent cfg gen month),
       st.processedFiles ++ ds.map (dayRecord cfg gen month),
       st.processedDays + (ds.map (okInc gen month)).sum⟩ := by
  induction ds generalizing st with
  | nil => simp
  | cons d ds ih =>
      simp [List.foldl_cons, runDay_eq, ih, List.append_assoc, Nat.add_assoc]

theorem runMonthDays_eq (cfg : Domain) (gen : Nat → Nat → Except String Json)
    (month fromDay : Nat) (st : RunState) :
    runMonthDays cfg gen month fromDay st =
      ⟨st.events ++ (monthDayList month fromDay).map (dayEvent cfg gen month),
       st.processedFiles ++ (monthDayList month fromDay).map (dayRecord cfg gen month),
       st.processedDays + ((monthDayList month fromDay).map (okInc gen month)).sum⟩ :=
  foldl_runDay_eq cfg gen month (monthDayList month fromDay) st

theorem runMonths_eq (cfg : Domain) (gen : Nat → Nat → Except String Json)
    (dayStart : Nat → Nat) (months : List Nat) (st : RunState) :
    runMonths cfg gen dayStart months st =
      ⟨st.events ++ months.flatMap
         (fun m => (monthDayList m (dayStart m)).map (dayEvent cfg gen m)),
       st.processedFiles ++ months.flatMap
         (fun m => (monthDayList m (dayStart m)).map (dayRecord cfg gen m)),
       st.processedDays + (months.map
         (fun m => ((monthDayList m (dayStart m)).map (okInc gen m)).sum)).sum⟩ := by
  induction months generalizing st with
  | nil => simp [runMonths]
  | cons m ms ih =>
      have h1 : runMonths cfg gen dayStart (m :: ms) st
          = runMonths cfg gen dayStart ms (runMonthDays cfg gen m (dayStart m) st) := rfl
      rw [h1, ih, runMonthDays_eq]
      simp [List.append_assoc, Nat.add_assoc]

theorem runMonthsBP_eq (gen : Nat → Nat → Except String Json)
    (months : List Nat) (st : RunState) :
    runMonthsBP gen months st =
      ⟨st.events ++ bpMonthsEvents gen months st.processedFiles st.processedDays,
       st.processedFiles ++ months.flatMap
         (fun m => (monthDayList m 1).map (dayRecord bpDomain gen m)),
       st.processedDays + (months.map
         (fun m => ((monthDayList m 1).map (okInc gen m)).sum)).sum⟩ := by
  induction months generalizing st with
  | nil => simp [runMonthsBP, bpMonthsEvents]
  | cons m ms ih =>
      have h1 : runMonthsBP gen (m :: ms) st
          = runMonthsBP gen ms
              (let st2 := runMonthDays bpDomain gen m 1 st
               { st2 with
                   events := st2.events ++
                     [Event.progress bpProgressFile st2.processedDays totalDays
                       (lastN 31 st2.processedFiles)] }) := rfl
      rw [h1, ih]
      simp only [runMonthDays_eq]
      simp [bpMonthsEvents, List.append_assoc, Nat.add_assoc]

theorem recKey_dayRecord (cfg : Domain) (gen : Nat → Nat → Except String Json)
    (month day : Nat) :
    recKey (dayRecord cfg gen month day) = (monthLongNameOfNum month, day) := by
  cases h : gen month day <;> simp [recKey, dayRecord, h]

theorem isProgressEvent_dayEvent (cfg : Domain)
    (gen : Nat → Nat → Except String Json) (month day : Nat) :
    isProgressEvent (dayEvent cfg gen month day) = false := rfl

/-- Two month arguments with the same normalized month name make the resolver
behave identically. -/
theorem getFromFile_month_congr (cfg : Domain) (a b : MonthArg)
    (h : normalizeMonth a = normalizeMonth b) (fs : String → FileState)
    (day : Nat) : getFromFile cfg fs a day = getFromFile cfg fs b day := by
  simp [getFromFile, resolverPath, h]

theorem resolverPath_month_congr (cfg : Domain) (a b : MonthArg)
    (h : normalizeMonth a = normalizeMonth b) (day : Nat) :
    resolverPath cfg a day = resolverPath cfg b day := by
  simp [resolverPath, h]

/-! ## Claim C1 -/

/-- Claim C1: for every valid date whose canonical file exists and parses, the
weird-holidays and blooming-plants resolvers return the parsed document
itself, whatever its shape (no shape validation). -/
theorem claim_C1_resolver_passthrough (month day : Nat)
    (hm1 : 1 ≤ month) (hm2 : month ≤ 12) (hd1 : 1 ≤ day) (hd2 : day ≤ dim month)
    (fs : String → FileState) (doc : Json) :
    (fs (resolverPath whDomain (MonthArg.num month) day) = FileState.valid doc →
      getWeirdHolidaysFromFile fs (MonthArg.num month) day = doc)
    ∧ (fs (resolverPath bpDomain (MonthArg.num month) day) = FileState.valid doc →
      getBloomingPlantsFromFile fs (MonthArg.num month) day = doc) := by
  constructor <;> intro h <;>
    simp only [getWeirdHolidaysFromFile, getBloomingPlantsFromFile, getFromFile, h]

/-- Witness for C1: a concrete file system holding a document with no
`holidays`/`plants` field at March 5; both resolvers return it unchanged. -/
theorem claim_C1_witness :
    getWeirdHolidaysFromFile fsDemo (MonthArg.num 3) 5 = demoDoc
    ∧ getBloomingPlantsFromFile fsDemo (MonthArg.num 3) 5 = demoDoc :=
  ⟨(claim_C1_resolver_passthrough 3 5 (by decide) (by decide) (by decide)
      (by decide) fsDemo demoDoc).1 rfl,
   (claim_C1_resolver_passthrough 3 5 (by decide) (by decide) (by decide)
      (by decide) fsDemo demoDoc).2 rfl⟩

/-! ## Claim C2 -/

/-- Counterexample for C2 as stated: on a missing file the weird-holidays
resolver's error string is `"No weird holiday data found for january 5"`,
not the claimed exact `"No data found for january 5"`. -/
theorem claim_C2_counterexample :
    jsonField (getWeirdHolidaysFromFile fsAbsent (MonthArg.num 1) 5) "error"
      = some (Json.str "No weird holiday data found for january 5")
    ∧ ("No weird holiday data found for january 5" : String)
      ≠ "No data found for january 5"
    ∧ jsonField (getWeirdHolidaysFromFile fsAbsent (MonthArg.num 1) 5) "error"
      ≠ some (Json.str "No data found for january 5") := by
  refine ⟨rfl, by decide, ?_⟩
  intro h
  have h2 : some (Json.str "No weird holiday data found for january 5")
      = some (Json.str "No data found for january 5") := by
    rw [← h]; rfl
  simp only [Option.some.injEq, Json.str.injEq] at h2
  exact absurd h2 (by decide)

/-- Claim C2 (amended): the resolver never throws; a missing file yields the
not-found object with error string
`"No weird holiday data found for <monthName> <day>"`, date
`"<monthName> <day>"`, empty `holidays` and the generation hint; an invalid
file yields the read-error object with error string
`"Error reading weird holiday data: <cause>"`, the same date and empty
`holidays`; and the two error strings always differ. -/
theorem claim_C2_amended (fs : String → FileState) (month : MonthArg) (day : Nat) :
    (fs (resolverPath whDomain month day) = FileState.absent →
      getWeirdHolidaysFromFile fs month day = Json.obj
        [("error", Json.str ("No weird holiday data found for "
            ++ normalizeMonth month ++ " " ++ toString day)),
         ("date", Json.str (normalizeMonth month ++ " " ++ toString day)),
         ("holidays", Json.arr []),
         ("message", Json.str
            "Run the weird holidays generation script to create holiday data files")])
    ∧ (∀ cause, fs (resolverPath whDomain month day) = FileState.invalid cause →
      getWeirdHolidaysFromFile fs month day = Json.obj
        [("error", Json.str ("Error reading weird holiday data: " ++ cause)),
         ("date", Json.str (normalizeMonth month ++ " " ++ toString day)),
         ("holidays", Json.arr [])])
    ∧ (∀ cause,
        ("No weird holiday data found for " ++ normalizeMonth month ++ " "
            ++ toString day)
          ≠ ("Error reading weird holiday data: " ++ cause)) := by
  refine ⟨fun h => ?_, fun cause h => ?_, fun cause h => ?_⟩
  · simp only [getWeirdHolidaysFromFile, getFromFile, h]
    simp [whDomain]
  · simp only [getWeirdHolidaysFromFile, getFromFile, h]
    simp [whDomain]
  · have h2 := congrArg String.data h
    simp at h2

/-- Witness for the amended C2 at concrete inputs (missing file at January 5,
invalid file at January 5). -/
theorem claim_C2_witness :
    getWeirdHolidaysFromFile fsAbsent (MonthArg.num 1) 5 = Json.obj
      [("error", Json.str ("No weird holiday data found for "
          ++ normalizeMonth (MonthArg.num 1) ++ " " ++ toString 5)),
       ("date", Json.str (normalizeMonth (MonthArg.num 1) ++ " " ++ toString 5)),
       ("holidays", Json.arr []),
       ("message", Json.str
          "Run the weird holidays generation script to create holiday data files")]
    ∧ getWeirdHolidaysFromFile fsCorrupt (MonthArg.num 1) 5 = Json.obj
      [("error", Json.str ("Error reading weird holiday data: "
          ++ "Unexpected token h in JSON at position 0")),
       ("date", Json.str (normalizeMonth (MonthArg.num 1) ++ " " ++ toString 5)),
       ("holidays", Json.arr [])] :=
  ⟨(claim_C2_amended fsAbsent (MonthArg.num 1) 5).1 rfl,
   (claim_C2_amended fsCorrupt (MonthArg.num 1) 5).2.1
     "Unexpected token h in JSON at position 0" rfl⟩

/-! ## Claim C7 -/

/-- Claim C7: canonical addressing is normalization-invariant — month name
`"March"` and month number 3 address the same file (and give the same
resolver result on every file system), and the day is zero-padded to two
digits: day 5 maps to `05.json`, day 25 to `25.json`. -/
theorem claim_C7_normalization (fs : String → FileState) (day : Nat) :
    getWeirdHolidaysFromFile fs (MonthArg.str "March") day
      = getWeirdHolidaysFromFile fs (MonthArg.num 3) day
    ∧ resolverPath whDomain (MonthArg.str "March") day
      = resolverPath whDomain (MonthArg.num 3) day
    ∧ resolverPath whDomain (MonthArg.num 3) 5
      = "data/weirdHolidays/march/05.json"
    ∧ resolverPath whDomain (MonthArg.num 3) 25
      = "data/weirdHolidays/march/25.json" := by
  refine ⟨?_, ?_, by decide, by decide⟩
  · exact getFromFile_month_congr whDomain _ _ (by decide) fs day
  · exact resolverPath_month_congr whDomain _ _ (by decide) day

/-- Witness for C7 at a concrete file system and day. -/
theorem claim_C7_witness :
    getWeirdHolidaysFromFile fsDemo (MonthArg.str "March") 5
      = getWeirdHolidaysFromFile fsDemo (MonthArg.num 3) 5
    ∧ resolverPath whDomain (MonthArg.str "March") 5
      = resolverPath whDomain (MonthArg.num 3) 5
    ∧ resolverPath whDomain (MonthArg.num 3) 5
      = "data/weirdHolidays/march/05.json"
    ∧ resolverPath whDomain (MonthArg.num 3) 25
      = "data/weirdHolidays/march/25.json" :=
  claim_C7_normalization fsDemo 5

/-! ## Claim C9 -/

/-- Claim C9: a numeric month goes through `Date(2024, month-1, 1)`, so
out-of-range numeric months wrap around the calendar: month 13 addresses the
same file as month 1, and month 0 the same file as month 12, for the
weird-holidays and historical-events resolvers (paths and full results). -/
theorem claim_C9_month_wraparound (fs : String → FileState) (day : Nat) :
    getWeirdHolidaysFromFile fs (MonthArg.num 13) day
      = getWeirdHolidaysFromFile fs (MonthArg.num 1) day
    ∧ getWeirdHolidaysFromFile fs (MonthArg.num 0) day
      = getWeirdHolidaysFromFile fs (MonthArg.num 12) day
    ∧ getHistoricalEventsFromFile fs (MonthArg.num 13) day
      = getHistoricalEventsFromFile fs (MonthArg.num 1) day
    ∧ getHistoricalEventsFromFile fs (MonthArg.num 0) day
      = getHistoricalEventsFromFile fs (MonthArg.num 12) day
    ∧ resolverPath whDomain (MonthArg.num 13) day
      = resolverPath whDomain (MonthArg.num 1) day
    ∧ resolverPath whDomain (MonthArg.num 0) day
      = resolverPath whDomain (MonthArg.num 12) day :=
  ⟨getFromFile_month_congr whDomain _ _ (by decide) fs day,
   getFromFile_month_congr whDomain _ _ (by decide) fs day,
   getFromFile_month_congr heDomain _ _ (by decide) fs day,
   getFromFile_month_congr heDomain _ _ (by decide) fs day,
   resolverPath_month_congr whDomain _ _ (by decide) day,
   resolverPath_month_congr whDomain _ _ (by decide) day⟩

/-! ## Summary-loop lemmas and claims C5, C10 -/

theorem foldl_append_singleton {α β : Type _} (f : α → β) (l : List α)
    (init : List β) :
    l.foldl (fun acc a => acc ++ [f a]) init = init ++ l.map f := by
  induction l generalizing init with
  | nil => simp
  | cons a l ih => simp [List.foldl_cons, ih]

theorem mkIndex_eq_map (records : List ProcessedFile) :
    mkIndex records = records.map fun r =>
      ((toLowerCase r.month, r.day),
       ⟨relativeToData r.file, r.itemCount, truthyErr r.error⟩) := by
  simpa [mkIndex] using
    foldl_append_singleton
      (fun r : ProcessedFile =>
        ((toLowerCase r.month, r.day),
         (⟨relativeToData r.file, r.itemCount, truthyErr r.error⟩ : IndexEntry)))
      records []

theorem foldl_summaryStep_errors (records : List ProcessedFile) :
    ∀ acc : Nat × Nat × Nat,
      (records.foldl summaryStep acc).2.2 = acc.2.2 + records.countP isErrRecord := by
  induction records with
  | nil => simp
  | cons r rs ih =>
      intro acc
      simp only [List.foldl_cons, List.countP_cons]
      rw [ih]
      cases h1 : truthyErr r.error with
      | true => simp [summaryStep, isErrRecord, h1]; omega
      | false =>
          by_cases h2 : r.itemCount > 0 <;>
            simp [summaryStep, isErrRecord, h1, h2] <;> omega

theorem foldl_summaryStep_days (records : List ProcessedFile) :
    ∀ acc : Nat × Nat × Nat,
      (records.foldl summaryStep acc).2.1 = acc.2.1 + records.countP isItemDay := by
  induction records with
  | nil => simp
  | cons r rs ih =>
      intro acc
      simp only [List.foldl_cons, List.countP_cons]
      rw [ih]
      cases h1 : truthyErr r.error with
      | true => simp [summaryStep, isItemDay, h1]
      | false =>
          by_cases h2 : r.itemCount > 0 <;>
            simp [summaryStep, isItemDay, h1, h2] <;> omega

/-- Claim C5: on the test vector, the summary builder yields totalItems 3,
daysWithItems 1, totalErrors 1 and an average of items over days-with-items
(not over all days) equal to 3. -/
theorem claim_C5_summarize_example :
    (generateHolidaySummaryAndIndex summaryExampleRecords).1.totalItems = 3
    ∧ (generateHolidaySummaryAndIndex summaryExampleRecords).1.totalDaysWithItems = 1
    ∧ (generateHolidaySummaryAndIndex summaryExampleRecords).1.totalErrors = 1
    ∧ (generateHolidaySummaryAndIndex summaryExampleRecords).1.averageItemsPerDay = 3 := by
  have hc : summaryCounts summaryExampleRecords = (3, 1, 1) := rfl
  refine ⟨rfl, rfl, rfl, ?_⟩
  simp only [generateHolidaySummaryAndIndex, mkSummary, hc]
  norm_num

/-- Counterexample for C10 as stated: a record carrying an error field whose
string is empty is not counted as an error (JS truthiness) — it is even
counted as a day with items when its item count is positive — and its index
entry has `hasError = false`. -/
theorem claim_C10_counterexample :
    (generateHolidaySummaryAndIndex
        [⟨"January", 1, "data/weirdHolidays/january/01.json", 4, some ""⟩]).1.totalErrors = 0
    ∧ (generateHolidaySummaryAndIndex
        [⟨"January", 1, "data/weirdHolidays/january/01.json", 4, some ""⟩]).1.totalDaysWithItems = 1
    ∧ (generateHolidaySummaryAndIndex
        [⟨"January", 1, "data/weirdHolidays/january/01.json", 4, some ""⟩]).2
      = [(("january", 1), ⟨"weirdHolidays/january/01.json", 4, false⟩)] :=
  ⟨rfl, rfl, rfl⟩

/-- Claim C10 (amended): in the summary/index builder, the error total counts
exactly the records with a non-empty error string (regardless of item count;
an empty error string is treated as error-free per JS truthiness), the
days-with-items total counts exactly the records with no truthy error and a
positive item count (so a no-error zero-count record lands in neither
bucket), every record receives an index entry with `hasError = !!error` and
counts toward `totalFiles`; consequently daysWithItems + totalErrors can be
strictly below totalFiles. -/
theorem claim_C10_amended (records : List ProcessedFile) :
    ((generateHolidaySummaryAndIndex records).1.totalErrors
       = records.countP isErrRecord)
    ∧ ((generateHolidaySummaryAndIndex records).1.totalDaysWithItems
       = records.countP isItemDay)
    ∧ ((generateHolidaySummaryAndIndex records).1.totalFiles = records.length)
    ∧ ((generateHolidaySummaryAndIndex records).2 = records.map fun r =>
        ((toLowerCase r.month, r.day),
         ⟨relativeToData r.file, r.itemCount, truthyErr r.error⟩))
    ∧ ((generateHolidaySummaryAndIndex mixedRecords).1.totalItems = 2
       ∧ (generateHolidaySummaryAndIndex mixedRecords).1.totalDaysWithItems = 1
       ∧ (generateHolidaySummaryAndIndex mixedRecords).1.totalErrors = 1
       ∧ (generateHolidaySummaryAndIndex mixedRecords).1.totalFiles = 3
       ∧ (generateHolidaySummaryAndIndex mixedRecords).1.totalDaysWithItems
           + (generateHolidaySummaryAndIndex mixedRecords).1.totalErrors < 3
       ∧ (generateHolidaySummaryAndIndex mixedRecords).2.head?
           = some (("january", 1), ⟨"weirdHolidays/january/01.json", 0, false⟩)) := by
  refine ⟨?_, ?_, rfl, mkIndex_eq_map records, by decide, rfl, rfl, rfl, by decide, rfl⟩
  · simpa using foldl_summaryStep_errors records (0, 0, 0)
  · simpa using foldl_summaryStep_days records (0, 0, 0)

/-- Witness for the amended C10 at the concrete mixed record list. -/
theorem claim_C10_witness :
    (generateHolidaySummaryAndIndex mixedRecords).1.totalErrors
      = mixedRecords.countP isErrRecord
    ∧ (generateHolidaySummaryAndIndex mixedRecords).1.totalDaysWithItems
      = mixedRecords.countP isItemDay
    ∧ (generateHolidaySummaryAndIndex mixedRecords).1.totalFiles
      = mixedRecords.length :=
  ⟨(claim_C10_amended mixedRecords).1, (claim_C10_amended mixedRecords).2.1,
   (claim_C10_amended mixedRecords).2.2.1⟩

/-- Witness for C9 at a concrete file system and day. -/
theorem claim_C9_witness :
    getWeirdHolidaysFromFile fsAbsent (MonthArg.num 13) 7
      = getWeirdHolidaysFromFile fsAbsent (MonthArg.num 1) 7
    ∧ getWeirdHolidaysFromFile fsAbsent (MonthArg.num 0) 7
      = getWeirdHolidaysFromFile fsAbsent (MonthArg.num 12) 7
    ∧ getHistoricalEventsFromFile fsAbsent (MonthArg.num 13) 7
      = getHistoricalEventsFromFile fsAbsent (MonthArg.num 1) 7
    ∧ getHistoricalEventsFromFile fsAbsent (MonthArg.num 0) 7
      = getHistoricalEventsFromFile fsAbsent (MonthArg.num 12) 7
    ∧ resolverPath whDomain (MonthArg.num 13) 7
      = resolverPath whDomain (MonthArg.num 1) 7
    ∧ resolverPath whDomain (MonthArg.num 0) 7
      = resolverPath whDomain (MonthArg.num 12) 7 :=
  claim_C9_month_wraparound fsAbsent 7

/-! ## Run-level helper lemmas -/

theorem countP_progress_mapDayEvents (cfg : Domain)
    (gen : Nat → Nat → Except String Json) (m : Nat) (ds : List Nat) :
    (ds.map (dayEvent cfg gen m)).countP isProgressEvent = 0 := by
  rw [List.countP_eq_zero]
  intro e he
  obtain ⟨d, _, rfl⟩ := List.mem_map.mp he
  simp [isProgressEvent_dayEvent]

theorem countP_progress_flatMapDayEvents (cfg : Domain)
    (gen : Nat → Nat → Except String Json) (dayStart : Nat → Nat)
    (months : List Nat) :
    ((months.flatMap fun m =>
        (monthDayList m (dayStart m)).map (dayEvent cfg gen m)).countP
      isProgressEvent) = 0 := by
  rw [List.countP_eq_zero]
  intro e he
  obtain ⟨m, _, he2⟩ := List.mem_flatMap.mp he
  obtain ⟨d, _, rfl⟩ := List.mem_map.mp he2
  simp [isProgressEvent_dayEvent]

theorem generateWeirdHolidays_events_eq (gen : Nat → Nat → Except String Json) :
    (generateWeirdHolidays gen).events =
      ((List.range' 1 12).flatMap fun m =>
        (monthDayList m 1).map (dayEvent whDomain gen m))
      ++ [Event.summaryFile whDomain.summaryFileName
            (mkSummary ((List.range' 1 12).flatMap fun m =>
              (monthDayList m 1).map (dayRecord whDomain gen m))),
          Event.indexFile whDomain.indexFileName
            (mkIndex ((List.range' 1 12).flatMap fun m =>
              (monthDayList m 1).map (dayRecord whDomain gen m)))] := by
  unfold generateWeirdHolidays finishRun
  rw [runMonths_eq]
  simp [initState]

theorem generateWeirdHolidays_processed_eq (gen : Nat → Nat → Except String Json) :
    (generateWeirdHolidays gen).processedFiles =
      (List.range' 1 12).flatMap fun m =>
        (monthDayList m 1).map (dayRecord whDomain gen m) := by
  unfold generateWeirdHolidays finishRun
  rw [runMonths_eq]
  simp [initState]

theorem generateBloomingPlants_events_eq (gen : Nat → Nat → Except String Json) :
    (generateBloomingPlants gen).events =
      bpMonthsEvents gen (List.range' 1 12) [] 0
      ++ [Event.summaryFile bpDomain.summaryFileName
            (mkSummary ((List.range' 1 12).flatMap fun m =>
              (monthDayList m 1).map (dayRecord bpDomain gen m))),
          Event.indexFile bpDomain.indexFileName
            (mkIndex ((List.range' 1 12).flatMap fun m =>
              (monthDayList m 1).map (dayRecord bpDomain gen m)))] := by
  unfold generateBloomingPlants finishRun
  rw [runMonthsBP_eq]
  simp [initState]

theorem generateBloomingPlants_processed_eq (gen : Nat → Nat → Except String Json) :
    (generateBloomingPlants gen).processedFiles =
      (List.range' 1 12).flatMap fun m =>
        (monthDayList m 1).map (dayRecord bpDomain gen m) := by
  unfold generateBloomingPlants finishRun
  rw [runMonthsBP_eq]
  simp [initState]

theorem generateWeirdHolidays_progress_count (gen : Nat → Nat → Except String Json) :
    (generateWeirdHolidays gen).events.countP isProgressEvent = 0 := by
  rw [generateWeirdHolidays_events_eq]
  simp [List.countP_append, countP_progress_flatMapDayEvents whDomain gen (fun _ => 1),
    isProgressEvent]

theorem countP_progress_bpMonthsEvents (gen : Nat → Nat → Except String Json)
    (months : List Nat) : ∀ (recs : List ProcessedFile) (pd : Nat),
    (bpMonthsEvents gen months recs pd).countP isProgressEvent = months.length := by
  induction months with
  | nil => intro recs pd; simp [bpMonthsEvents]
  | cons m ms ih =>
      intro recs pd
      simp [bpMonthsEvents, List.countP_append, countP_progress_mapDayEvents,
        isProgressEvent, dayEvent, ih]

theorem flatMap_dayRecord_map_recKey (cfg : Domain)
    (gen : Nat → Nat → Except String Json) (dayStart : Nat → Nat)
    (months : List Nat) :
    ((months.flatMap fun m =>
        (monthDayList m (dayStart m)).map (dayRecord cfg gen m)).map recKey) =
      months.flatMap fun m =>
        (monthDayList m (dayStart m)).map fun d => (monthLongNameOfNum m, d) := by
  simp [List.map_flatMap, List.map_map, Function.comp_def, recKey_dayRecord]

theorem generateWeirdHolidays_processed_map (gen : Nat → Nat → Except String Json) :
    (generateWeirdHolidays gen).processedFiles.map recKey =
      allDates.map fun p => (monthLongNameOfNum p.1, p.2) := by
  rw [generateWeirdHolidays_processed_eq, flatMap_dayRecord_map_recKey]
  simp [allDates, List.map_flatMap, List.map_map, Function.comp_def, monthDayList]

theorem generateBloomingPlants_processed_map (gen : Nat → Nat → Except String Json) :
    (generateBloomingPlants gen).processedFiles.map recKey =
      allDates.map fun p => (monthLongNameOfNum p.1, p.2) := by
  rw [generateBloomingPlants_processed_eq, flatMap_dayRecord_map_recKey]
  simp [allDates, List.map_flatMap, List.map_map, Function.comp_def, monthDayList]

theorem mem_bpMonthsEvents (gen : Nat → Nat → Except String Json) (m d : Nat)
    (months : List Nat) (hm : m ∈ months) (hd : d ∈ monthDayList m 1) :
    ∀ (recs : List ProcessedFile) (pd : Nat),
      dayEvent bpDomain gen m d ∈ bpMonthsEvents gen months recs pd := by
  induction months with
  | nil => exact absurd hm (List.not_mem_nil m)
  | cons m0 ms ih =>
      intro recs pd
      rw [bpMonthsEvents]
      rcases List.mem_cons.mp hm with h | h
      · subst h
        exact List.mem_append_left _
          (List.mem_append_left _ (List.mem_map_of_mem _ hd))
      · exact List.mem_append_right _ (ih h _ _)

/-! ## Claim C3 -/

/-- Counterexample for C3 as stated: the weird-holidays full generation run
processes all 365 dates yet writes no progress snapshot at all (unlike the
blooming-plants and historical-events generators). -/
theorem claim_C3_counterexample :
    (generateWeirdHolidays genOkDemo).events.countP isProgressEvent = 0
    ∧ (generateWeirdHolidays genOkDemo).processedFiles.length = 365 := by
  constructor
  · exact generateWeirdHolidays_progress_count genOkDemo
  · have h := congrArg List.length (generateWeirdHolidays_processed_map genOkDemo)
    simp only [List.length_map] at h
    rw [h]
    decide

/-- Claim C3 (amended): the blooming-plants full run writes exactly one
progress snapshot after each of the 12 months — its event trace is the
months' day writes each followed by a progress snapshot carrying the
cumulative success count, the total day count and the last (up to) 31
processed-file records, then the summary and index writes — while the
weird-holidays full run writes no progress snapshot at all. -/
theorem claim_C3_amended (gen gen2 : Nat → Nat → Except String Json) :
    ((generateBloomingPlants gen).events =
      bpMonthsEvents gen (List.range' 1 12) [] 0
      ++ [Event.summaryFile bpDomain.summaryFileName
            (mkSummary ((List.range' 1 12).flatMap fun m =>
              (monthDayList m 1).map (dayRecord bpDomain gen m))),
          Event.indexFile bpDomain.indexFileName
            (mkIndex ((List.range' 1 12).flatMap fun m =>
              (monthDayList m 1).map (dayRecord bpDomain gen m)))])
    ∧ (generateBloomingPlants gen).events.countP isProgressEvent = 12
    ∧ (generateWeirdHolidays gen2).events.countP isProgressEvent = 0 := by
  refine ⟨generateBloomingPlants_events_eq gen, ?_,
    generateWeirdHolidays_progress_count gen2⟩
  rw [generateBloomingPlants_events_eq gen]
  simp [List.countP_append, countP_progress_bpMonthsEvents, isProgressEvent]

/-- Witness for the amended C3 at a concrete oracle. -/
theorem claim_C3_witness :
    (generateBloomingPlants genOkDemo).events.countP isProgressEvent = 12
    ∧ (generateWeirdHolidays genOkDemo).events.countP isProgressEvent = 0 :=
  ⟨(claim_C3_amended genOkDemo genOkDemo).2.1,
   (claim_C3_amended genOkDemo genOkDemo).2.2⟩

/-! ## Claim C4 -/

/-- Claim C4: resuming from June 15 processes exactly the canonical dates not
strictly before (6, 15) — June 15 through December 31, 200 dates, in
ascending chronological order — for both resume functions, and the up-front
skipped-day count equals the number of canonical dates strictly before
(6, 15). -/
theorem claim_C4_resume_june15 (gen gen2 : Nat → Nat → Except String Json) :
    ((resumeWeirdHolidaysFromDate gen 6 15).1.processedFiles.map recKey
       = (allDates.filter fun p => !dateBefore p (6, 15)).map
           fun p => (monthLongNameOfNum p.1, p.2))
    ∧ ((resumeBloomingPlantsFromDate gen2 6 15).1.processedFiles.map recKey
       = (allDates.filter fun p => !dateBefore p (6, 15)).map
           fun p => (monthLongNameOfNum p.1, p.2))
    ∧ (resumeWeirdHolidaysFromDate gen 6 15).2
       = (allDates.filter fun p => dateBefore p (6, 15)).length
    ∧ (allDates.filter fun p => !dateBefore p (6, 15)).head? = some (6, 15)
    ∧ (allDates.filter fun p => !dateBefore p (6, 15)).getLast? = some (12, 31)
    ∧ (allDates.filter fun p => !dateBefore p (6, 15)).length = 200
    ∧ List.Pairwise (fun a b => dateBefore a b = true)
        (allDates.filter fun p => !dateBefore p (6, 15)) := by
  refine ⟨?_, ?_, ?_, by decide, by decide, by decide, by decide⟩
  · rw [show (resumeWeirdHolidaysFromDate gen 6 15).1.processedFiles
        = (List.range' 6 (13 - 6)).flatMap fun m =>
            (monthDayList m (if m = 6 then 15 else 1)).map (dayRecord whDomain gen m)
      from by unfold resumeWeirdHolidaysFromDate finishRun; rw [runMonths_eq]; simp [initState]]
    rw [flatMap_dayRecord_map_recKey]
    decide
  · rw [show (resumeBloomingPlantsFromDate gen2 6 15).1.processedFiles
        = (List.range' 6 (13 - 6)).flatMap fun m =>
            (monthDayList m (if m = 6 then 15 else 1)).map (dayRecord bpDomain gen2 m)
      from by unfold resumeBloomingPlantsFromDate finishRun; rw [runMonths_eq]; simp [initState]]
    rw [flatMap_dayRecord_map_recKey]
    decide
  · exact (by decide :
      skipDaysCount 6 15 = (allDates.filter fun p => dateBefore p (6, 15)).length)

/-- Witness for C4 at a concrete oracle. -/
theorem claim_C4_witness :
    (resumeWeirdHolidaysFromDate genOkDemo 6 15).1.processedFiles.map recKey
      = (allDates.filter fun p => !dateBefore p (6, 15)).map
          fun p => (monthLongNameOfNum p.1, p.2) :=
  (claim_C4_resume_june15 genOkDemo genOkDemo).1

/-! ## Claim C6 -/

/-- Claim C6: a per-date collaborator failure never aborts a full run — the
error record is persisted at that date's canonical path, a processed-file
record with the message and item count 0 is appended, and the run still
processes every one of the 365 canonical dates in order (shown for the
weird-holidays and blooming-plants full runs). -/
theorem claim_C6_failure_isolated (gen : Nat → Nat → Except String Json)
    (month day : Nat) (msg : String)
    (hmem : (month, day) ∈ allDates) (hfail : gen month day = .error msg) :
    (Event.dayFile (dayPath whDomain month day) (errRecordJson whDomain month day msg)
       ∈ (generateWeirdHolidays gen).events)
    ∧ ((⟨monthLongNameOfNum month, day, dayPath whDomain month day, 0, some msg⟩ :
         ProcessedFile) ∈ (generateWeirdHolidays gen).processedFiles)
    ∧ ((generateWeirdHolidays gen).processedFiles.map recKey
       = allDates.map fun p => (monthLongNameOfNum p.1, p.2))
    ∧ (Event.dayFile (dayPath bpDomain month day) (errRecordJson bpDomain month day msg)
       ∈ (generateBloomingPlants gen).events)
    ∧ ((⟨monthLongNameOfNum month, day, dayPath bpDomain month day, 0, some msg⟩ :
         ProcessedFile) ∈ (generateBloomingPlants gen).processedFiles)
    ∧ ((generateBloomingPlants gen).processedFiles.map recKey
       = allDates.map fun p => (monthLongNameOfNum p.1, p.2)) := by
  obtain ⟨m, hm, hmd⟩ := List.mem_flatMap.mp hmem
  obtain ⟨d, hd, heq⟩ := List.mem_map.mp hmd
  rw [Prod.mk.injEq] at heq
  obtain ⟨rfl, rfl⟩ := heq
  have hd2 : d ∈ monthDayList m 1 := by
    simpa [monthDayList] using hd
  refine ⟨?_, ?_, generateWeirdHolidays_processed_map gen, ?_, ?_,
    generateBloomingPlants_processed_map gen⟩
  · rw [generateWeirdHolidays_events_eq]
    refine List.mem_append_left _ (List.mem_flatMap.mpr ⟨m, hm, List.mem_map.mpr
      ⟨d, hd2, ?_⟩⟩)
    simp [dayEvent, dayContent, hfail]
  · rw [generateWeirdHolidays_processed_eq]
    refine List.mem_flatMap.mpr ⟨m, hm, List.mem_map.mpr ⟨d, hd2, ?_⟩⟩
    simp [dayRecord, hfail]
  · rw [generateBloomingPlants_events_eq]
    refine List.mem_append_left _ ?_
    have := mem_bpMonthsEvents gen m d (List.range' 1 12) hm hd2 [] 0
    simpa [dayEvent, dayContent, hfail] using this
  · rw [generateBloomingPlants_processed_eq]
    refine List.mem_flatMap.mpr ⟨m, hm, List.mem_map.mpr ⟨d, hd2, ?_⟩⟩
    simp [dayRecord, hfail]

/-- Witness for C6: the always-failing oracle at January 1. -/
theorem claim_C6_witness :
    (Event.dayFile (dayPath whDomain 1 1) (errRecordJson whDomain 1 1 "boom")
       ∈ (generateWeirdHolidays genFailDemo).events)
    ∧ ((⟨monthLongNameOfNum 1, 1, dayPath whDomain 1 1, 0, some "boom"⟩ :
         ProcessedFile) ∈ (generateWeirdHolidays genFailDemo).processedFiles)
    ∧ ((generateWeirdHolidays genFailDemo).processedFiles.map recKey
       = allDates.map fun p => (monthLongNameOfNum p.1, p.2))
    ∧ (Event.dayFile (dayPath bpDomain 1 1) (errRecordJson bpDomain 1 1 "boom")
       ∈ (generateBloomingPlants genFailDemo).events)
    ∧ ((⟨monthLongNameOfNum 1, 1, dayPath bpDomain 1 1, 0, some "boom"⟩ :
         ProcessedFile) ∈ (generateBloomingPlants genFailDemo).processedFiles)
    ∧ ((generateBloomingPlants genFailDemo).processedFiles.map recKey
       = allDates.map fun p => (monthLongNameOfNum p.1, p.2)) :=
  claim_C6_failure_isolated genFailDemo 1 1 "boom" (by decide) rfl

/-! ## Claim C8 -/

/-- Claim C8: `generateSingleDate` persists exactly one date's document at
its canonical path and returns its processed-file record, writing no
summary, index or progress artifact; on collaborator failure it propagates
the error to its caller and writes nothing — no error record (shown for the
blooming-plants and historical-events scripts). -/
theorem claim_C8_single_date (gen : Nat → Nat → Except String Json)
    (month day : Nat) :
    (∀ doc, gen month day = .ok doc →
      generateSingleDate bpDomain gen month day
        = ([Event.dayFile (dayPath bpDomain month day) doc],
           Except.ok ⟨monthLongNameOfNum month, day, dayPath bpDomain month day,
             fieldArrayLen doc "plants", none⟩)
      ∧ generateSingleDate heDomain gen month day
        = ([Event.dayFile (dayPath heDomain month day) doc],
           Except.ok ⟨monthLongNameOfNum month, day, dayPath heDomain month day,
             fieldArrayLen doc "events", none⟩))
    ∧ (∀ msg, gen month day = .error msg →
      generateSingleDate bpDomain gen month day = ([], Except.error msg)
      ∧ generateSingleDate heDomain gen month day = ([], Except.error msg)) := by
  constructor
  · intro doc h
    constructor <;> simp [generateSingleDate, h, bpDomain, heDomain]
  · intro msg h
    constructor <;> simp [generateSingleDate, h]

/-- Witness for C8: a succeeding oracle and a failing oracle at March 5. -/
theorem claim_C8_witness :
    (generateSingleDate bpDomain genOkDemo 3 5
       = ([Event.dayFile (dayPath bpDomain 3 5) demoHolidaysDoc],
          Except.ok ⟨monthLongNameOfNum 3, 5, dayPath bpDomain 3 5,
            fieldArrayLen demoHolidaysDoc "plants", none⟩))
    ∧ (generateSingleDate bpDomain genFailDemo 3 5 = ([], Except.error "boom"))
    ∧ (generateSingleDate heDomain genFailDemo 3 5 = ([], Except.error "boom")) :=
  ⟨((claim_C8_single_date genOkDemo 3 5).1 demoHolidaysDoc rfl).1,
   ((claim_C8_single_date genFailDemo 3 5).2 "boom" rfl).1,
   ((claim_C8_single_date genFailDemo 3 5).2 "boom" rfl).2⟩

end TodayApi
